import Mathlib

/-!
Verification development for the nyaa interpreter (src/src/Interpreter.py,
src/src/core/ASTNodes.py): a shallow embedding of the evaluator core.
Python dynamic values are modelled by the tagged `Payload` type; the
interpreter's mutable fields (environments, control-flow flags, visitor
depth, recursion count, the two caches, stdout) form the state `St`.
Evaluation is fuel-indexed; running out of fuel is a distinguished error
that never corresponds to a source behaviour.  `Environment`,
`RunTimeObject`, `CacheMemory` and `ErrorHandler` are not part of the
staged sources; the definitions for them below are modelled from the spec
(see their doc comments).
-/

namespace Nyaa

/-- Python-level payload carried by a RunTimeObject.  Python floats arising
here are modelled exactly by rationals; `pbool` is kept separate because
Python treats bool as a subtype of int (`isinstance(True, int)` holds). -/
inductive Payload where
  | pint (n : Int)
  | pfloat (q : ℚ)
  | pstr (s : String)
  | pbool (b : Bool)
  | pnone
deriving DecidableEq

/-- Python truthiness of a payload: 0, 0.0, the empty string, False and None
are falsy; everything else is truthy. -/
def Payload.truthy : Payload → Bool
  | .pint n => n != 0
  | .pfloat q => q != 0
  | .pstr s => s != ""
  | .pbool b => b
  | .pnone => false

/-- Python `value == 0` (used by the division guard `right.value != 0`):
booleans compare as their integer value, non-numbers are simply not 0. -/
def Payload.pyEqZero : Payload → Bool
  | .pint n => n == 0
  | .pfloat q => q == 0
  | .pbool b => b == false
  | _ => false

/-- Python `isinstance(value, int)`: true for int payloads and for bool
payloads, since bool is a subtype of int in Python. -/
def Payload.isInt : Payload → Bool
  | .pint _ => true
  | .pbool _ => true
  | _ => false

/-- Whether the payload is numeric (int, float or bool) for arithmetic. -/
def Payload.isNum : Payload → Bool
  | .pint _ => true
  | .pfloat _ => true
  | .pbool _ => true
  | _ => false

/-- The integer value of an int-like payload (bools count as 0/1). -/
def Payload.toIntVal : Payload → Int
  | .pint n => n
  | .pbool b => if b then 1 else 0
  | _ => 0

/-- The rational value of a numeric payload. -/
def Payload.toRat : Payload → ℚ
  | .pint n => (n : ℚ)
  | .pfloat q => q
  | .pbool b => if b then 1 else 0
  | _ => 0

/-- Python `str(value)` for the payloads the claims print (int, string,
bool, None); the float rendering is an approximation not exercised here. -/
def Payload.pyStr : Payload → String
  | .pint n => toString n
  | .pfloat q => toString q
  | .pstr s => s
  | .pbool b => if b then "True" else "False"
  | .pnone => "None"

/-- Modelled from the spec: `RunTimeObject` (src/core/RuntimeObject.py is not
staged) is a tagged record with a label discriminating the variant and a
payload; the optional `value_type` field is read nowhere relevant and is
dropped. -/
structure RunTimeObject where
  label : String
  value : Payload
deriving DecidableEq

/-! The AST node model of src/src/core/ASTNodes.py.  Elif entries are the
`ElifNode(expr, body)` variant; `else` bodies are stored as plain body
nodes, as the evaluator's direct `.accept` of them requires.  Child lists
and optional children use the mutual types `NodeList` and `NodeOpt` so
that equality of nodes (the visit-cache key) is decidable.  An absent
`initial_values` list and an empty one behave identically in
`visit_array_def` (both are falsy in Python), so both are `NodeList.nil`. -/
mutual
inductive Node where
  | program (functions : NodeList) (progBody : NodeOpt) (eof : Bool)
  | funcDef (identifier : String) (fdArgs : NodeOpt) (fdBody : Node)
  | bodyNode (statements : NodeList)
  | returnNode (rexpr : NodeOpt)
  | breakNode
  | continueNode
  | ifNode (cond : Node) (ibody : Node) (elifs : NodeList) (elseBody : NodeOpt)
  | elifNode (econd : Node) (ebody : Node)
  | whileNode (cond : Node) (wbody : Node)
  | forNode (ident : Node) (rangeStart : Node) (rangeEnd : Node) (forBody : Node)
  | arrayDef (identifier : String) (size : NodeOpt) (initialValues : NodeList)
  | arrayAccess (identifier : String) (index : Node)
  | arrayUpdate (identifier : String) (index : Node) (newValue : Node)
  | assignment (lhs : Node) (rhs : Node)
  | callNode (identifier : String) (callArgs : NodeOpt)
  | printNode (pargs : Node) (println : Bool)
  | inputNode (message : String)
  | postfixExpr (pleft : Node) (op : String)
  | argsNode (children : NodeList)
  | exprNode (eleft : Node) (op : Option String) (eright : NodeOpt)
  | simpleExpr (sleft : Node) (op : Option String) (sright : NodeOpt)
  | termNode (tleft : Node) (op : Option String) (tright : NodeOpt)
  | factorNode (fleft : Node) (fright : NodeOpt)
  | operatorNode (opValue : String)
  | identifierNode (name : String)
  | numericLiteral (numValue : Payload)
  | stringLiteral (strValue : String)
  | booleanLiteral (boolValue : Bool)

inductive NodeList where
  | nil
  | cons (head : Node) (tail : NodeList)

inductive NodeOpt where
  | noneN
  | someN (n : Node)
end

deriving instance DecidableEq for Node, NodeList, NodeOpt

/-- The last element of a node list, modelling Python `statements[-1]`. -/
def NodeList.getLast? : NodeList → Option Node
  | .nil => none
  | .cons h .nil => some h
  | .cons _ (.cons h t) => NodeList.getLast? (.cons h t)

/-- The `label` attribute each node class passes to `Node.__init__`. -/
def Node.label : Node → String
  | .program .. => "program"
  | .funcDef .. => "func_def"
  | .bodyNode .. => "body"
  | .returnNode .. => "return"
  | .breakNode => "break"
  | .continueNode => "continue"
  | .ifNode .. => "if"
  | .elifNode .. => "elif"
  | .whileNode .. => "while"
  | .forNode .. => "for"
  | .arrayDef .. => "array_def"
  | .arrayAccess .. => "array_access"
  | .arrayUpdate .. => "array_update"
  | .assignment .. => "assignment"
  | .callNode .. => "call"
  | .printNode .. => "print"
  | .inputNode .. => "input"
  | .postfixExpr .. => "postfix_expr"
  | .argsNode .. => "args"
  | .exprNode .. => "expr"
  | .simpleExpr .. => "simple_expr"
  | .termNode .. => "term"
  | .factorNode .. => "factor"
  | .operatorNode .. => "operator"
  | .identifierNode .. => "identifier"
  | .numericLiteral .. => "numeric_literal"
  | .stringLiteral .. => "string_literal"
  | .booleanLiteral .. => "boolean_literal"

/-- Modelled from the spec: `FunctionSymbol(name, ordered parameter names,
body node)` (src/core/Symbol.py is not staged).  Parameter names are the
payloads of the identifier runtime objects `visit_func_def` collects. -/
structure FunctionSymbol where
  params : List Payload
  fbody : Node
deriving DecidableEq

/-- The `ArraySymbol(name, size, values)` built by `visit_array_def`. -/
structure ArraySymbol where
  aname : String
  asize : Int
  values : List RunTimeObject
deriving DecidableEq

/-- Upsert into an association list, keeping the original position of an
existing key, as a Python dict assignment does. -/
def upsert {α β : Type} [DecidableEq α] (k : α) (v : β) : List (α × β) → List (α × β)
  | [] => [(k, v)]
  | (k2, v2) :: rest => if k2 = k then (k, v) :: rest else (k2, v2) :: upsert k v rest

/-- Lookup in an association list (Python dict `get`). -/
def alookup {α β : Type} [DecidableEq α] (k : α) : List (α × β) → Option β
  | [] => none
  | (k2, v2) :: rest => if k2 = k then some v2 else alookup k rest

/-- Modelled from the spec: an `Environment` is a named scope with level and
three disjoint namespaces (variables, arrays, functions)
(src/core/Environment.py is not staged).  The parent of every non-global
scope is the global scope, so the parent pointer lives in the state, not
here.  Variable keys are payloads because `insert_variable` receives
`lhs.value`. -/
structure Env where
  ename : String
  level : Int
  vars : List (Payload × RunTimeObject)
  arrays : List (String × ArraySymbol)
  funcs : List (String × FunctionSymbol)
deriving DecidableEq

/-- The interpreter's `current_env`: the global scope, a function-local
scope (whose parent is always global), or `None` (set at end of program). -/
inductive Scope where
  | globalScope
  | localScope (e : Env)
  | undef
deriving DecidableEq

/-- The result of a visit: Python handlers return `None`, one
`RunTimeObject`, or (for `visit_args`) a list of runtime objects. -/
inductive VRes where
  | vnone
  | obj (r : RunTimeObject)
  | objs (rs : List RunTimeObject)
deriving DecidableEq

/-- Python truthiness of a handler result (`if stmt := ...` in the loops):
`None` is falsy, a `RunTimeObject` is truthy, a list is truthy when
non-empty. -/
def VRes.pyTruthy : VRes → Bool
  | .vnone => false
  | .obj _ => true
  | .objs rs => !rs.isEmpty

/-- Modelled from the spec: the call-memoization key, `Environment.hash()`,
is a fingerprint of scope name, level and the parameter bindings
(src/core/Environment.py is not staged). -/
structure EnvKey where
  kname : String
  klevel : Int
  kbindings : List (Payload × RunTimeObject)
deriving DecidableEq

/-- Error taxonomy: `InterpreterError` kinds from src/utils/ErrorHandler.py
as the spec lists them. -/
inductive ErrType where
  | runtimeErr
  | typeErr
  | recursionErr
deriving DecidableEq

/-- An evaluation error: an `InterpreterError`, a host `RecursionError`
(the visitor-depth guard raises one), any other host-level exception
(`TypeError`, `AttributeError`, ...) which `interpret` does not catch, or
fuel exhaustion (an artefact of the embedding, never a source behaviour). -/
inductive Err where
  | interp (t : ErrType) (msg : String)
  | hostRecursion (msg : String)
  | hostError (msg : String)
  | outOfFuel
deriving DecidableEq

/-- The interpreter state: global environment, current scope, the three
one-shot control-flow flags, the two safety counters, the process-global
cache (node-dispatch memoization modelled as the set of visited nodes,
since dispatch is a pure function of the node; call memoization keyed by
environment fingerprint), collected stdout and pending stdin lines. -/
structure St where
  globalEnv : Env
  cur : Scope
  conditionalFlag : Bool
  breakFlag : Bool
  continueFlag : Bool
  visitorDepth : Nat
  recursionCount : Int
  dispatchCache : List Node
  callCache : List (EnvKey × VRes)
  output : String
  stdinLines : List String
deriving DecidableEq

def MAX_VISIT_DEPTH : Nat := 5470

def INTERNAL_RECURSION_LIMIT : Int := 1010

/-- The fresh state `Interpreter.__init__` produces: a global environment
named global at level 1 and everything else empty. -/
def initState : St :=
  { globalEnv := { ename := "global", level := 1, vars := [], arrays := [], funcs := [] }
    cur := .globalScope
    conditionalFlag := false
    breakFlag := false
    continueFlag := false
    visitorDepth := 0
    recursionCount := 0
    dispatchCache := []
    callCache := []
    output := ""
    stdinLines := [] }

/-- Modelled from the spec: `lookup_variable` resolves in the current scope
then chains to the global parent; absence is a RUNTIME name-not-found
error.  The `within_scope` variant is never used by the staged evaluator.
A `None` scope fails at attribute access (a host error). -/
def St.lookupVariableChain (s : St) (k : Payload) : Except Err RunTimeObject :=
  match s.cur with
  | .undef => .error (.hostError "NoneType has no attribute lookup_variable")
  | .globalScope =>
    match alookup k s.globalEnv.vars with
    | some v => .ok v
    | none => .error (.interp .runtimeErr "Variable not found")
  | .localScope e =>
    match alookup k e.vars with
    | some v => .ok v
    | none =>
      match alookup k s.globalEnv.vars with
      | some v => .ok v
      | none => .error (.interp .runtimeErr "Variable not found")

/-- Modelled from the spec: `insert_variable` upserts into the current
scope. -/
def St.insertVariable (s : St) (k : Payload) (v : RunTimeObject) : Except Err St :=
  match s.cur with
  | .undef => .error (.hostError "NoneType has no attribute insert_variable")
  | .globalScope =>
    .ok { s with globalEnv := { s.globalEnv with vars := upsert k v s.globalEnv.vars } }
  | .localScope e =>
    .ok { s with cur := .localScope { e with vars := upsert k v e.vars } }

/-- In-place mutation of a variable binding found by chained lookup (the
postfix operators mutate the looked-up object, which lives in whichever
scope the lookup found it in).  Only reached after a successful lookup. -/
def St.updateVariableChain (s : St) (k : Payload) (v : RunTimeObject) : St :=
  match s.cur with
  | .localScope e =>
    if (alookup k e.vars).isSome then
      { s with cur := .localScope { e with vars := upsert k v e.vars } }
    else
      { s with globalEnv := { s.globalEnv with vars := upsert k v s.globalEnv.vars } }
  | _ => { s with globalEnv := { s.globalEnv with vars := upsert k v s.globalEnv.vars } }

/-- Modelled from the spec: `lookup_array` with chaining; absent is a
RUNTIME name-not-found error. -/
def St.lookupArrayChain (s : St) (k : String) : Except Err ArraySymbol :=
  match s.cur with
  | .undef => .error (.hostError "NoneType has no attribute lookup_array")
  | .globalScope =>
    match alookup k s.globalEnv.arrays with
    | some v => .ok v
    | none => .error (.interp .runtimeErr "Array not found")
  | .localScope e =>
    match alookup k e.arrays with
    | some v => .ok v
    | none =>
      match alookup k s.globalEnv.arrays with
      | some v => .ok v
      | none => .error (.interp .runtimeErr "Array not found")

/-- Modelled from the spec: `insert_array` upserts into the current scope. -/
def St.insertArray (s : St) (k : String) (a : ArraySymbol) : Except Err St :=
  match s.cur with
  | .undef => .error (.hostError "NoneType has no attribute insert_array")
  | .globalScope =>
    .ok { s with globalEnv := { s.globalEnv with arrays := upsert k a s.globalEnv.arrays } }
  | .localScope e =>
    .ok { s with cur := .localScope { e with arrays := upsert k a e.arrays } }

/-- In-place mutation of an array symbol found by chained lookup
(`visit_array_update` mutates the looked-up symbol's value list). -/
def St.updateArrayChain (s : St) (k : String) (a : ArraySymbol) : St :=
  match s.cur with
  | .localScope e =>
    if (alookup k e.arrays).isSome then
      { s with cur := .localScope { e with arrays := upsert k a e.arrays } }
    else
      { s with globalEnv := { s.globalEnv with arrays := upsert k a s.globalEnv.arrays } }
  | _ => { s with globalEnv := { s.globalEnv with arrays := upsert k a s.globalEnv.arrays } }

/-- Modelled from the spec: `lookup_function` with chaining to global. -/
def St.lookupFunctionChain (s : St) (k : String) : Option FunctionSymbol :=
  match s.cur with
  | .localScope e =>
    match alookup k e.funcs with
    | some v => some v
    | none => alookup k s.globalEnv.funcs
  | _ => alookup k s.globalEnv.funcs

/-- Modelled from the spec: `insert_function` upserts into the current
scope. -/
def St.insertFunction (s : St) (k : String) (fsym : FunctionSymbol) : Except Err St :=
  match s.cur with
  | .undef => .error (.hostError "NoneType has no attribute insert_function")
  | .globalScope =>
    .ok { s with globalEnv := { s.globalEnv with funcs := upsert k fsym s.globalEnv.funcs } }
  | .localScope e =>
    .ok { s with cur := .localScope { e with funcs := upsert k fsym e.funcs } }

/-- Modelled from the spec: `cache_mem.get(env_hash)` returns the stored
value, or Python `None` on a miss; a stored `None` result is therefore
indistinguishable from a miss. -/
def pyCacheGet (c : List (EnvKey × VRes)) (k : EnvKey) : VRes :=
  match alookup k c with
  | some v => v
  | none => .vnone

/-- Coerce a handler result to a runtime object; Python code doing
`.value` or `.label` on `None` or a list raises a host error. -/
def asRTO : VRes → Except Err RunTimeObject
  | .obj r => .ok r
  | .vnone => .error (.hostError "NoneType has no attribute value")
  | .objs _ => .error (.hostError "list has no attribute value")

/-- Modelled from the spec: `throw_invalid_operation_err` standardises
invalid-operation messages and raises a RUNTIME `InterpreterError`
(src/utils/ErrorHandler.py is not staged). -/
def invalidOpMsg (l op r : String) : String :=
  "Invalid operation: " ++ l ++ " " ++ op ++ " " ++ r

def divisionByZeroMsg : String :=
  "Division by zero is not kawaii, please don't do that."

def undefinedScopeMsg : String :=
  "Undefined scope. Please define a scope before executing statements"

def visitorDepthMsg : String :=
  "Visitor depth exceeded! You've ventured too far into the code jungle."

def recursionLimitMsg : String :=
  "Ara Ara!!! Non-kawaii recursion depth exceeded"

def rangeValueMsg : String :=
  "Range value cannot be used as an integer"

def arityMsg (expected got : Nat) : String :=
  "Invalid number of arguments provided... Expected " ++ toString expected ++
    " but got " ++ toString got

/-- Python numeric addition on payloads: int-like operands stay int,
otherwise the result is a float (modelled exactly by a rational). -/
def pyNumAdd (a b : Payload) : Payload :=
  if a.isInt && b.isInt then .pint (a.toIntVal + b.toIntVal)
  else .pfloat (a.toRat + b.toRat)

/-- Python numeric subtraction on payloads. -/
def pyNumSub (a b : Payload) : Payload :=
  if a.isInt && b.isInt then .pint (a.toIntVal - b.toIntVal)
  else .pfloat (a.toRat - b.toRat)

/-- Python numeric multiplication on payloads. -/
def pyNumMul (a b : Payload) : Payload :=
  if a.isInt && b.isInt then .pint (a.toIntVal * b.toIntVal)
  else .pfloat (a.toRat * b.toRat)

/-- Python `/` on numbers: always a float; exact here over the rationals.
Only reached with a non-zero divisor. -/
def pyDiv (a b : Payload) : Payload :=
  .pfloat (a.toRat / b.toRat)

/-- Python `s * n` for a string and an int-like number: repetition
(non-positive counts give the empty string). -/
def pyRepeat (s : String) (n : Int) : String :=
  String.join (List.replicate n.toNat s)

/-- Python `left.value * right.value` when one label is string and the
other number: string repetition for int-like counts, a host `TypeError`
for float counts. -/
def pyMulStrNum (a b : Payload) : Except Err Payload :=
  match a, b with
  | .pstr s, .pint n => .ok (.pstr (pyRepeat s n))
  | .pstr s, .pbool c => .ok (.pstr (pyRepeat s (if c then 1 else 0)))
  | .pint n, .pstr s => .ok (.pstr (pyRepeat s n))
  | .pbool c, .pstr s => .ok (.pstr (pyRepeat s (if c then 1 else 0)))
  | _, _ => .error (.hostError "cannot multiply sequence by non-int")

/-- Python `or`: the left operand if truthy, otherwise the right. -/
def pyOr (a b : Payload) : Payload :=
  if a.truthy then a else b

/-- Python `and`: the left operand if falsy, otherwise the right. -/
def pyAnd (a b : Payload) : Payload :=
  if a.truthy then b else a

/-- Python unary negation of a payload; non-numbers raise `TypeError`. -/
def pyNeg : Payload → Except Err Payload
  | .pint n => .ok (.pint (-n))
  | .pfloat q => .ok (.pfloat (-q))
  | .pbool b => .ok (.pint (-(if b then 1 else 0)))
  | _ => .error (.hostError "bad operand type for unary minus")

/-- Python `value += d` for the postfix operators; non-numbers raise
`TypeError`. -/
def pyAddDelta (a : Payload) (d : Int) : Except Err Payload :=
  match a with
  | .pint n => .ok (.pint (n + d))
  | .pfloat q => .ok (.pfloat (q + d))
  | .pbool b => .ok (.pint ((if b then 1 else 0) + d))
  | _ => .error (.hostError "unsupported operand type for +=")

/-- Python `int(value)`: ints pass through, bools become 0/1, floats
truncate toward zero, numeric strings parse, everything else raises. -/
def pyToInt : Payload → Except Err Int
  | .pint n => .ok n
  | .pbool b => .ok (if b then 1 else 0)
  | .pfloat q => .ok (Int.tdiv q.num q.den)
  | .pstr s =>
    match s.toInt? with
    | some n => .ok n
    | none => .error (.hostError "invalid literal for int")
  | .pnone => .error (.hostError "int of NoneType")

/-- The numeric comparison the source builds with `eval`, for the six
relational operators; any other operator is a host-level failure. -/
def pyCompareRat (op : String) (a b : ℚ) : Except Err Bool :=
  if op == "==" then .ok (decide (a = b))
  else if op == "!=" then .ok (decide (a ≠ b))
  else if op == "<" then .ok (decide (a < b))
  else if op == ">" then .ok (decide (b < a))
  else if op == "<=" then .ok (decide (a ≤ b))
  else if op == ">=" then .ok (decide (b ≤ a))
  else .error (.hostError "eval failed on operator")

/-- The lexicographic string comparison the source builds with `eval`
(assuming quote-free strings, the only ones the claims exercise). -/
def pyCompareStr (op : String) (a b : String) : Except Err Bool :=
  if op == "==" then .ok (a == b)
  else if op == "!=" then .ok (a != b)
  else if op == "<" then .ok (decide (a < b))
  else if op == ">" then .ok (decide (b < a))
  else if op == "<=" then .ok (decide (a ≤ b))
  else if op == ">=" then .ok (decide (b ≤ a))
  else .error (.hostError "eval failed on operator")

/-- The `Interpreter.handle_additive_expressions` helper: string or
numeric `+`, numeric `-`, Python `or` with the left label; anything else
falls through to the invalid-operation error. -/
def handleAdditiveExpressions (left right : RunTimeObject) (op : String) :
    Except Err RunTimeObject :=
  if op == "+" then
    if left.label == "string" && right.label == "string" then
      match left.value, right.value with
      | .pstr a, .pstr b => .ok ⟨"string", .pstr (a ++ b)⟩
      | _, _ => .error (.hostError "concatenation of non-strings")
    else if left.label == "number" && right.label == "number" then
      if left.value.isNum && right.value.isNum then
        .ok ⟨"number", pyNumAdd left.value right.value⟩
      else .error (.hostError "addition of non-numbers")
    else .error (.interp .runtimeErr (invalidOpMsg left.label op right.label))
  else if op == "-" then
    if left.label == "number" && right.label == "number" then
      if left.value.isNum && right.value.isNum then
        .ok ⟨"number", pyNumSub left.value right.value⟩
      else .error (.hostError "subtraction of non-numbers")
    else .error (.interp .runtimeErr (invalidOpMsg left.label op right.label))
  else if op == "or" then
    .ok ⟨left.label, pyOr left.value right.value⟩
  else .error (.interp .runtimeErr (invalidOpMsg left.label op right.label))

/-- The `Interpreter.handle_multiplicative_expressions` helper:
string-number repetition or numeric product for `*`; `/` only on
number-labelled operands, raising the RUNTIME division-by-zero error
exactly when the right payload equals zero; Python `and` with the right
label; anything else is the invalid-operation error. -/
def handleMultiplicativeExpressions (left right : RunTimeObject) (op : String) :
    Except Err RunTimeObject :=
  if op == "*" then
    if (left.label == "string" && right.label == "number") ||
        (left.label == "number" && right.label == "string") then
      match pyMulStrNum left.value right.value with
      | .ok p => .ok ⟨"string", p⟩
      | .error e => .error e
    else if left.label == "number" && right.label == "number" then
      if left.value.isNum && right.value.isNum then
        .ok ⟨"number", pyNumMul left.value right.value⟩
      else .error (.hostError "multiplication of non-numbers")
    else .error (.interp .runtimeErr (invalidOpMsg left.label op right.label))
  else if op == "/" then
    if left.label == "number" && right.label == "number" then
      if right.value.pyEqZero then
        .error (.interp .runtimeErr divisionByZeroMsg)
      else
        if left.value.isNum && right.value.isNum then
          .ok ⟨"number", pyDiv left.value right.value⟩
        else .error (.hostError "division of non-numbers")
    else .error (.interp .runtimeErr (invalidOpMsg left.label op right.label))
  else if op == "and" then
    .ok ⟨right.label, pyAnd left.value right.value⟩
  else .error (.interp .runtimeErr (invalidOpMsg left.label op right.label))

/-- The `Interpreter.handle_relational_expressions` helper: a string on
the left compared with a number on the right compares the string's length
against the number; equal labels compare lexicographically (strings) or
numerically; every other combination is the invalid-operation error. -/
def handleRelationalExpressions (left right : RunTimeObject) (op : String) :
    Except Err RunTimeObject :=
  if left.label == "string" && right.label == "number" then
    match left.value with
    | .pstr s =>
      if right.value.isNum then
        match pyCompareRat op (s.length : ℚ) right.value.toRat with
        | .ok b => .ok ⟨"boolean", .pbool b⟩
        | .error e => .error e
      else .error (.hostError "eval failed on operands")
    | _ => .error (.hostError "len of non-string")
  else if left.label == right.label then
    if left.label == "string" then
      match left.value, right.value with
      | .pstr a, .pstr b =>
        match pyCompareStr op a b with
        | .ok r => .ok ⟨"boolean", .pbool r⟩
        | .error e => .error e
      | _, _ => .error (.hostError "eval failed on operands")
    else
      if left.value.isNum && right.value.isNum then
        match pyCompareRat op left.value.toRat right.value.toRat with
        | .ok r => .ok ⟨"boolean", .pbool r⟩
        | .error e => .error e
      else .error (.hostError "eval failed on operands")
  else .error (.interp .runtimeErr (invalidOpMsg left.label op right.label))

/-- The `validate_range_node` check after the range expression has been
visited: Python `isinstance(value, int)` accepts int and bool payloads;
anything else raises the RUNTIME range error. -/
def validateRangeValue (r : RunTimeObject) : Except Err Int :=
  if r.value.isInt then .ok r.value.toIntVal
  else .error (.interp .runtimeErr rangeValueMsg)

/-- Python `range(start, stop, step)` as a list, exact for the steps 1 and
-1 that `visit_for` uses. -/
def rangeLen (start stop step : Int) : Nat :=
  if 0 < step then (stop - start).toNat else (start - stop).toNat

def pythonRange (start stop step : Int) : List Int :=
  (List.range (rangeLen start stop step)).map (fun (k : Nat) => start + step * (k : Int))

/-- The default fill of a size-allocated array: the source builds
`RunTimeObject("null", value="null")`, whose payload is the string
"null". -/
def nullFill : RunTimeObject := ⟨"null", .pstr "null"⟩

/-- The `__test_for_identifier` helper: identifier-labelled objects are
resolved through the scope chain, everything else passes through. -/
def testForIdentifier (s : St) (r : RunTimeObject) : Except Err RunTimeObject :=
  if r.label == "identifier" then s.lookupVariableChain r.value
  else .ok r

/-- Parameter collection in `visit_func_def`: ordered, duplicates raise a
RUNTIME error. -/
def buildParams : List RunTimeObject → List Payload → Except Err (List Payload)
  | [], acc => .ok acc
  | r :: rest, acc =>
    if r.value ∈ acc then .error (.interp .runtimeErr "Duplicate parameter")
    else buildParams rest (acc ++ [r.value])

/-- The stdout text of one `print` call: payload strings separated by
single spaces, nothing trailing. -/
def printJoin : List RunTimeObject → String
  | [] => ""
  | [r] => r.value.pyStr
  | r :: rest => r.value.pyStr ++ " " ++ printJoin rest

/-! The evaluator.  To keep evaluation definitionally computable (so that
concrete runs are settled by rfl), the mutually recursive visit functions
of the source are expressed as one fuel-structural step function over an
explicit task type; a named wrapper per source function restores the
source's call shape.  `visit` consumes one fuel unit before running the
handler, while the cached dispatch path runs the handler directly, so the
two paths can be compared at equal fuel.  Running out of fuel is the
artificial error `Err.outOfFuel`, never a source behaviour. -/

/-- One pending evaluation step: a node accept, the full visit path, a
handler dispatch, or one of the evaluator's internal loops. -/
inductive Task where
  | tAccept (n : Node)
  | tVisit (n : Node)
  | tHandler (n : Node)
  | tCallCore (nm : String) (cargs : NodeOpt) (lvl : Int)
  | tStmtList (stmts : NodeList) (lastV : VRes)
  | tRTOList (ns : NodeList)
  | tFuncList (ns : NodeList)
  | tHandleCond (bodyN : Node)
  | tElifChain (elifs : NodeList) (elseB : NodeOpt)
  | tWhileLoop (condN : Node) (bodyN : Node) (c : RunTimeObject)
  | tForLoop (key : Payload) (values : List Int) (bodyN : Node)
  | tHandleExprs (lN : Node) (op : Option String) (rN : NodeOpt)
deriving DecidableEq

/-- The evaluator step function.  Each task mirrors one function of the
source interpreter; see the wrappers below for the correspondence. -/
def evalTask : Nat → St → Task → Except Err (VRes × St)
  | 0, _, _ => .error .outOfFuel
  | fuel + 1, s, t =>
    match t with
    | .tAccept n =>
      -- Node.accept: cached dispatch or full visit.
      if n ∈ s.dispatchCache then evalTask fuel s (.tHandler n)
      else evalTask fuel s (.tVisit n)
    | .tVisit n =>
      -- Interpreter.visit: depth guard, scope guard, memoize, dispatch.
      if s.visitorDepth ≥ MAX_VISIT_DEPTH then
        .error (.hostRecursion visitorDepthMsg)
      else if s.cur = .undef then
        .error (.interp .runtimeErr undefinedScopeMsg)
      else
        let s1 := { s with
          visitorDepth := s.visitorDepth + 1
          dispatchCache := if n ∈ s.dispatchCache then s.dispatchCache else n :: s.dispatchCache }
        match evalTask fuel s1 (.tHandler n) with
        | .ok (r, s2) => .ok (r, { s2 with visitorDepth := s2.visitorDepth - 1 })
        | .error e => .error e
    | .tHandler n =>
      match n with
      | .program funcs progBody eof =>
        -- visit_program
        if eof then .ok (.vnone, s)
        else
          match evalTask fuel s (.tFuncList funcs) with
          | .error e => .error e
          | .ok (_, s1) =>
            match progBody with
            | .noneN => .error (.hostError "NoneType has no attribute accept")
            | .someN b =>
              match evalTask fuel s1 (.tAccept b) with
              | .error e => .error e
              | .ok (_, s2) => .ok (.vnone, { s2 with cur := .undef })
      | .funcDef nm fargs fbody =>
        -- visit_func_def
        match fargs with
        | .noneN =>
          match s.insertFunction nm ⟨[], fbody⟩ with
          | .error e => .error e
          | .ok s1 => .ok (.vnone, s1)
        | .someN an =>
          match evalTask fuel s (.tAccept an) with
          | .error e => .error e
          | .ok (r, s1) =>
            match r with
            | .objs rtos =>
              match buildParams rtos [] with
              | .error e => .error e
              | .ok ps =>
                match s1.insertFunction nm ⟨ps, fbody⟩ with
                | .error e => .error e
                | .ok s2 => .ok (.vnone, s2)
            | _ => .error (.hostError "args visit did not return a list")
      | .bodyNode stmts =>
        -- visit_body
        evalTask fuel s (.tStmtList stmts .vnone)
      | .returnNode rexpr =>
        -- visit_return
        match rexpr with
        | .noneN => .ok (.vnone, s)
        | .someN e => evalTask fuel s (.tAccept e)
      | .breakNode => .ok (.vnone, { s with breakFlag := true })
      | .continueNode => .ok (.vnone, { s with continueFlag := true })
      | .ifNode cond body elifs elseB =>
        -- visit_if
        match evalTask fuel s (.tAccept cond) with
        | .error e => .error e
        | .ok (c, s1) =>
          match asRTO c with
          | .error e => .error e
          | .ok cr =>
            if cr.value.truthy then evalTask fuel s1 (.tHandleCond body)
            else evalTask fuel s1 (.tElifChain elifs elseB)
      | .elifNode _ _ => .error (.hostError "No visit_elif method defined")
      | .whileNode cond body =>
        -- visit_while
        match evalTask fuel s (.tAccept cond) with
        | .error e => .error e
        | .ok (c, s1) =>
          match asRTO c with
          | .error e => .error e
          | .ok cr => evalTask fuel s1 (.tWhileLoop cond body cr)
      | .forNode ident rs re body =>
        -- visit_for
        match evalTask fuel s (.tAccept rs) with
        | .error e => .error e
        | .ok (r1, s1) =>
          match asRTO r1 with
          | .error e => .error e
          | .ok o1 =>
            match validateRangeValue o1 with
            | .error e => .error e
            | .ok a =>
              match evalTask fuel s1 (.tAccept re) with
              | .error e => .error e
              | .ok (r2, s2) =>
                match asRTO r2 with
                | .error e => .error e
                | .ok o2 =>
                  match validateRangeValue o2 with
                  | .error e => .error e
                  | .ok b =>
                    match ident with
                    | .identifierNode nm =>
                      match s2.insertVariable (.pstr nm) ⟨"number", .pint 0⟩ with
                      | .error e => .error e
                      | .ok s3 =>
                        evalTask fuel s3 (.tForLoop (.pstr nm)
                          (pythonRange a b (if a < b then 1 else -1)) body)
                    | _ => .error (.hostError "node has no attribute value")
      | .arrayDef nm size initVals =>
        -- visit_array_def
        match size with
        | .someN sn =>
          match evalTask fuel s (.tAccept sn) with
          | .error e => .error e
          | .ok (r, s1) =>
            match asRTO r with
            | .error e => .error e
            | .ok ro =>
              match testForIdentifier s1 ro with
              | .error e => .error e
              | .ok rv =>
                match pyToInt rv.value with
                | .error e => .error e
                | .ok sz =>
                  match s1.insertArray nm ⟨nm, sz, List.replicate sz.toNat nullFill⟩ with
                  | .error e => .error e
                  | .ok s2 => .ok (.vnone, s2)
        | .noneN =>
          match initVals with
          | .nil =>
            match s.insertArray nm ⟨nm, -1, []⟩ with
            | .error e => .error e
            | .ok s1 => .ok (.vnone, s1)
          | vs =>
            match evalTask fuel s (.tRTOList vs) with
            | .error e => .error e
            | .ok (r, s1) =>
              match r with
              | .objs rtos =>
                match s1.insertArray nm ⟨nm, (rtos.length : Int), rtos⟩ with
                | .error e => .error e
                | .ok s2 => .ok (.vnone, s2)
              | _ => .error (.hostError "values visit did not return a list")
      | .arrayAccess nm idxN =>
        -- visit_array_access
        match evalTask fuel s (.tAccept idxN) with
        | .error e => .error e
        | .ok (r, s1) =>
          match asRTO r with
          | .error e => .error e
          | .ok ro =>
            match testForIdentifier s1 ro with
            | .error e => .error e
            | .ok rv =>
              match s1.lookupArrayChain nm with
              | .error e => .error e
              | .ok arr =>
                if rv.value.isNum then
                  if rv.value.toRat < 0 || (arr.values.length : ℚ) ≤ rv.value.toRat then
                    .error (.interp .runtimeErr "Array index out of bounds")
                  else if rv.value.isInt then
                    match arr.values[rv.value.toIntVal.toNat]? with
                    | some v => .ok (.obj v, s1)
                    | none => .error (.hostError "list index out of range")
                  else .error (.hostError "list indices must be integers")
                else .error (.hostError "comparison of incompatible operands")
      | .arrayUpdate nm idxN valN =>
        -- visit_array_update
        match evalTask fuel s (.tAccept idxN) with
        | .error e => .error e
        | .ok (ri, s1) =>
          match asRTO ri with
          | .error e => .error e
          | .ok io =>
            match testForIdentifier s1 io with
            | .error e => .error e
            | .ok idxV =>
              match evalTask fuel s1 (.tAccept valN) with
              | .error e => .error e
              | .ok (rv, s2) =>
                match asRTO rv with
                | .error e => .error e
                | .ok vo =>
                  match s2.lookupArrayChain nm with
                  | .error e => .error e
                  | .ok arr =>
                    match pyToInt idxV.value with
                    | .error e => .error e
                    | .ok i =>
                      if i < 0 || (arr.values.length : Int) ≤ i then
                        .error (.interp .runtimeErr "Array index out of bounds")
                      else if idxV.value.isInt then
                        .ok (.vnone, s2.updateArrayChain nm
                          { arr with values := arr.values.set i.toNat ⟨vo.label, vo.value⟩ })
                      else .error (.hostError "list indices must be integers")
      | .assignment l r =>
        -- visit_assignment
        match evalTask fuel s (.tAccept l) with
        | .error e => .error e
        | .ok (lv, s1) =>
          match asRTO lv with
          | .error e => .error e
          | .ok lo =>
            match evalTask fuel s1 (.tAccept r) with
            | .error e => .error e
            | .ok (rv, s2) =>
              match asRTO rv with
              | .error e => .error e
              | .ok ro =>
                match s2.insertVariable lo.value ⟨ro.label, ro.value⟩ with
                | .error e => .error e
                | .ok s3 => .ok (.vnone, s3)
      | .callNode nm cargs =>
        -- visit_call: check_for_stack_overflow, then the call core at the
        -- current scope's level
        if s.recursionCount > INTERNAL_RECURSION_LIMIT then
          .error (.interp .recursionErr recursionLimitMsg)
        else
          match s.cur with
          | .undef => .error (.hostError "NoneType has no attribute level")
          | .globalScope =>
            evalTask fuel { s with recursionCount := s.recursionCount + 1 }
              (.tCallCore nm cargs s.globalEnv.level)
          | .localScope e =>
            evalTask fuel { s with recursionCount := s.recursionCount + 1 }
              (.tCallCore nm cargs e.level)
      | .printNode pargsN pl =>
        -- visit_print
        match evalTask fuel s (.tAccept pargsN) with
        | .error e => .error e
        | .ok (r, s1) =>
          match r with
          | .objs rtos =>
            .ok (.vnone, { s1 with
              output := s1.output ++ printJoin rtos ++ (if pl then "\n" else "") })
          | _ => .error (.hostError "print args not a list")
      | .inputNode msg =>
        -- visit_input
        match s.stdinLines with
        | [] => .error (.hostError "EOF when reading a line")
        | l :: rest =>
          .ok (.obj ⟨"string", .pstr l⟩,
            { s with output := s.output ++ msg, stdinLines := rest })
      | .postfixExpr l op =>
        -- visit_postfix_expr
        match evalTask fuel s (.tAccept l) with
        | .error e => .error e
        | .ok (lv, s1) =>
          match asRTO lv with
          | .error e => .error e
          | .ok lo =>
            match testForIdentifier s1 lo with
            | .error e => .error e
            | .ok ro =>
              match pyAddDelta ro.value (if op == "++" then 1 else -1) with
              | .error e => .error e
              | .ok nv =>
                .ok (.obj ⟨"number", nv⟩,
                  if lo.label == "identifier" then
                    s1.updateVariableChain lo.value ⟨ro.label, nv⟩
                  else s1)
      | .argsNode children =>
        -- visit_args
        evalTask fuel s (.tRTOList children)
      | .exprNode l op r => evalTask fuel s (.tHandleExprs l op r)
      | .simpleExpr l op r => evalTask fuel s (.tHandleExprs l op r)
      | .termNode l op r => evalTask fuel s (.tHandleExprs l op r)
      | .factorNode l r =>
        -- visit_factor
        match evalTask fuel s (.tAccept l) with
        | .error e => .error e
        | .ok (lv, s1) =>
          match asRTO lv with
          | .error e => .error e
          | .ok lo =>
            match testForIdentifier s1 lo with
            | .error e => .error e
            | .ok leftF =>
              match r with
              | .noneN => .ok (.obj leftF, s1)
              | .someN rN =>
                match evalTask fuel s1 (.tAccept rN) with
                | .error e => .error e
                | .ok (rv, s2) =>
                  match asRTO rv with
                  | .error e => .error e
                  | .ok ro =>
                    match testForIdentifier s2 ro with
                    | .error e => .error e
                    | .ok rightF =>
                      if leftF.value = .pstr "not" then
                        if rightF.label == "string" || rightF.label == "number" ||
                            rightF.label == "identifier" || rightF.label == "boolean" then
                          .ok (.obj ⟨"boolean", .pbool (!rightF.value.truthy)⟩, s2)
                        else .error (.interp .typeErr "Unary operator not supported")
                      else if leftF.value = .pstr "-" then
                        match pyNeg rightF.value with
                        | .ok p => .ok (.obj ⟨"number", p⟩, s2)
                        | .error _ => .error (.interp .typeErr "bad operand type for unary minus")
                      else .ok (.obj leftF, s2)
      | .operatorNode v => .ok (.obj ⟨"operator", .pstr v⟩, s)
      | .identifierNode v => .ok (.obj ⟨"identifier", .pstr v⟩, s)
      | .numericLiteral v => .ok (.obj ⟨"number", v⟩, s)
      | .stringLiteral v => .ok (.obj ⟨"string", .pstr v⟩, s)
      | .booleanLiteral b => .ok (.obj ⟨"boolean", .pbool b⟩, s)
    | .tCallCore nm cargs lvl =>
      -- the body of visit_call after the overflow check and level read:
      -- chained function lookup, argument evaluation in the caller scope
      -- with arity check, scope switch to a fresh local environment
      -- parented to global, call memoization keyed by the environment
      -- fingerprint, scope restore and recursion-count decrement
      match s.lookupFunctionChain nm with
      | none => .error (.interp .runtimeErr "Function not found")
      | some fsym =>
        let argsRes : Except Err (List (Payload × RunTimeObject) × St) :=
          match cargs with
          | .noneN => .ok ([], s)
          | .someN an =>
            match evalTask fuel s (.tAccept an) with
            | .error e => .error e
            | .ok (r, s1) =>
              match r with
              | .objs vals =>
                if vals.length ≠ fsym.params.length then
                  .error (.interp .runtimeErr (arityMsg fsym.params.length vals.length))
                else .ok (fsym.params.zip vals, s1)
              | _ => .error (.hostError "args visit did not return a list")
        match argsRes with
        | .error e => .error e
        | .ok (bindings, s1) =>
          let key : EnvKey := ⟨nm, lvl + 1, bindings⟩
          let s2 := { s1 with cur := .localScope ⟨nm, lvl + 1, bindings, [], []⟩ }
          if pyCacheGet s2.callCache key = .vnone then
            match evalTask fuel s2 (.tAccept fsym.fbody) with
            | .error e => .error e
            | .ok (res, s3) =>
              .ok (res, { s3 with
                callCache := upsert key res s3.callCache
                cur := s.cur
                recursionCount := s3.recursionCount - 1 })
          else
            .ok (pyCacheGet s2.callCache key,
              { s2 with cur := s.cur, recursionCount := s2.recursionCount - 1 })
    | .tStmtList stmts lastV =>
      -- the visit_body statement loop with the one-shot flag protocol: a
      -- set conditional_flag is cleared and exits the body; a set
      -- break_flag exits the body and stays set; a set continue_flag is
      -- cleared and skips the current statement; a return statement exits
      -- with its value
      match stmts with
      | .nil => .ok (lastV, s)
      | .cons stmt rest =>
        if s.conditionalFlag then .ok (lastV, { s with conditionalFlag := false })
        else if s.breakFlag then .ok (lastV, s)
        else if s.continueFlag then
          evalTask fuel { s with continueFlag := false } (.tStmtList rest lastV)
        else
          match evalTask fuel s (.tAccept stmt) with
          | .error e => .error e
          | .ok (ev, s1) =>
            let last2 := match ev with | .vnone => lastV | v => v
            if stmt.label == "return" then .ok (last2, s1)
            else evalTask fuel s1 (.tStmtList rest last2)
    | .tRTOList ns =>
      -- visit_args / array initial values: each node yields one runtime
      -- object, collected in order
      match ns with
      | .nil => .ok (.objs [], s)
      | .cons n2 rest =>
        match evalTask fuel s (.tAccept n2) with
        | .error e => .error e
        | .ok (r, s1) =>
          match asRTO r with
          | .error e => .error e
          | .ok ro =>
            match evalTask fuel s1 (.tRTOList rest) with
            | .error e => .error e
            | .ok (rs, s2) =>
              match rs with
              | .objs rest2 => .ok (.objs (ro :: rest2), s2)
              | _ => .error (.hostError "values visit did not return a list")
    | .tFuncList ns =>
      -- the function-definition loop of visit_program (results discarded)
      match ns with
      | .nil => .ok (.vnone, s)
      | .cons n2 rest =>
        match evalTask fuel s (.tAccept n2) with
        | .error e => .error e
        | .ok (_, s1) => evalTask fuel s1 (.tFuncList rest)
    | .tHandleCond bodyN =>
      -- __handle_conditional_execution: run the branch body; when the
      -- body's last statement is a return, set conditional_flag and hand
      -- the body's value out; otherwise the helper returns None
      match evalTask fuel s (.tAccept bodyN) with
      | .error e => .error e
      | .ok (lastV, s1) =>
        match bodyN with
        | .bodyNode stmts =>
          match stmts.getLast? with
          | none => .error (.hostError "list index out of range")
          | some lastN =>
            if lastN.label == "return" then
              .ok (lastV, { s1 with conditionalFlag := true })
            else .ok (.vnone, s1)
        | _ => .error (.hostError "node has no attribute statements")
    | .tElifChain elifs elseB =>
      -- the elif chain and else fallthrough of visit_if
      match elifs with
      | .nil =>
        match elseB with
        | .someN eb => evalTask fuel s (.tHandleCond eb)
        | .noneN => .ok (.vnone, s)
      | .cons e2 rest =>
        match e2 with
        | .elifNode econd ebody =>
          match evalTask fuel s (.tAccept econd) with
          | .error er => .error er
          | .ok (c, s1) =>
            match asRTO c with
            | .error er => .error er
            | .ok cr =>
              if cr.value.truthy then evalTask fuel s1 (.tHandleCond ebody)
              else evalTask fuel s1 (.tElifChain rest elseB)
        | _ => .error (.hostError "node has no attribute expr")
    | .tWhileLoop condN bodyN c =>
      -- the visit_while loop carrying the current condition object: a
      -- truthy branch value returns immediately; a set break_flag is
      -- consumed (cleared) and stops the loop; otherwise the condition is
      -- re-evaluated
      if c.value.truthy then
        match evalTask fuel s (.tHandleCond bodyN) with
        | .error e => .error e
        | .ok (r, s1) =>
          if r.pyTruthy then .ok (r, s1)
          else if s1.breakFlag then .ok (.vnone, { s1 with breakFlag := false })
          else
            match evalTask fuel s1 (.tAccept condN) with
            | .error e => .error e
            | .ok (c2, s2) =>
              match asRTO c2 with
              | .error e => .error e
              | .ok cr2 => evalTask fuel s2 (.tWhileLoop condN bodyN cr2)
      else .ok (.vnone, s)
    | .tForLoop key values bodyN =>
      -- the visit_for iteration over the computed Python range: each value
      -- is written to the iterator binding (modelling the source's
      -- in-place mutation of the shared RunTimeObject, equivalent unless
      -- the body rebinds the loop variable, which no claim exercises); a
      -- truthy branch value returns.  The break_flag is never consumed
      -- here, exactly as in the source
      match values with
      | [] => .ok (.vnone, s)
      | i :: rest =>
        match s.insertVariable key ⟨"number", .pint i⟩ with
        | .error e => .error e
        | .ok s1 =>
          match evalTask fuel s1 (.tHandleCond bodyN) with
          | .error e => .error e
          | .ok (r, s2) =>
            if r.pyTruthy then .ok (r, s2)
            else evalTask fuel s2 (.tForLoop key rest bodyN)
    | .tHandleExprs lN opq rNq =>
      -- visit_expr / visit_simple_expr / visit_term via handle_expressions
      match evalTask fuel s (.tAccept lN) with
      | .error e => .error e
      | .ok (lv, s1) =>
        match asRTO lv with
        | .error e => .error e
        | .ok lo =>
          match testForIdentifier s1 lo with
          | .error e => .error e
          | .ok left =>
            match opq with
            | none => .ok (.obj left, s1)
            | some op =>
              if op == "" then .ok (.obj left, s1)
              else
                match rNq with
                | .noneN => .error (.hostError "NoneType has no attribute accept")
                | .someN rN =>
                  match evalTask fuel s1 (.tAccept rN) with
                  | .error e => .error e
                  | .ok (rv, s2) =>
                    match asRTO rv with
                    | .error e => .error e
                    | .ok ro =>
                      match testForIdentifier s2 ro with
                      | .error e => .error e
                      | .ok right =>
                        if op == "+" || op == "-" || op == "or" then
                          match handleAdditiveExpressions left right op with
                          | .ok r => .ok (.obj r, s2)
                          | .error e => .error e
                        else if op == "*" || op == "/" || op == "and" then
                          match handleMultiplicativeExpressions left right op with
                          | .ok r => .ok (.obj r, s2)
                          | .error e => .error e
                        else if op == "==" || op == "!=" || op == "<" || op == ">" ||
                            op == "<=" || op == ">=" then
                          match handleRelationalExpressions left right op with
                          | .ok r => .ok (.obj r, s2)
                          | .error e => .error e
                        else
                          .error (.interp .runtimeErr (invalidOpMsg left.label op right.label))

/-- Node.accept. -/
def accept (fuel : Nat) (s : St) (n : Node) : Except Err (VRes × St) :=
  evalTask fuel s (.tAccept n)

/-- Interpreter.visit (the full dispatch path with its guards). -/
def visit (fuel : Nat) (s : St) (n : Node) : Except Err (VRes × St) :=
  evalTask fuel s (.tVisit n)

/-- The handler dispatch alone, which is what a visit-cache hit runs. -/
def runHandler (fuel : Nat) (s : St) (n : Node) : Except Err (VRes × St) :=
  evalTask fuel s (.tHandler n)

/-- The body of visit_call after the overflow check and level read. -/
def evalCallCore (fuel : Nat) (s : St) (nm : String) (cargs : NodeOpt) (lvl : Int) :
    Except Err (VRes × St) :=
  evalTask fuel s (.tCallCore nm cargs lvl)

/-- The visit_body statement loop. -/
def evalStmtList (fuel : Nat) (s : St) (stmts : NodeList) (lastV : VRes) :
    Except Err (VRes × St) :=
  evalTask fuel s (.tStmtList stmts lastV)

/-- __handle_conditional_execution. -/
def handleConditionalExecution (fuel : Nat) (s : St) (bodyN : Node) :
    Except Err (VRes × St) :=
  evalTask fuel s (.tHandleCond bodyN)

/-- The visit_while loop. -/
def whileLoop (fuel : Nat) (s : St) (condN bodyN : Node) (c : RunTimeObject) :
    Except Err (VRes × St) :=
  evalTask fuel s (.tWhileLoop condN bodyN c)

/-- The visit_for iteration. -/
def forLoop (fuel : Nat) (s : St) (key : Payload) (values : List Int) (bodyN : Node) :
    Except Err (VRes × St) :=
  evalTask fuel s (.tForLoop key values bodyN)


/-- Modelled from the spec: the textual form of an InterpreterError as it
reaches stderr (the formatting glue lives in the unstaged ErrorHandler). -/
def errText (t : ErrType) (m : String) : String :=
  (match t with
   | .runtimeErr => "RUNTIME"
   | .typeErr => "TYPE"
   | .recursionErr => "RECURSION") ++ " error: " ++ m

/-- Interpreter.interpret: run accept on the AST; an InterpreterError or a
host RecursionError is printed to stderr (second component) and the method
returns Python None; other host errors propagate out uncaught. -/
def interpret (fuel : Nat) (s : St) (ast : Node) : Except Err (VRes × List String) :=
  match accept fuel s ast with
  | .ok (r, _) => .ok (r, [])
  | .error (.interp t m) => .ok (.vnone, [errText t m])
  | .error (.hostRecursion m) => .ok (.vnone, ["Visitor Error: " ++ m])
  | .error e => .error e

/-! Concrete inputs used by the claim theorems below. -/

/-- A program whose body is the single statement `42`. -/
def c1Prog : Node :=
  .program .nil (.someN (.bodyNode (.cons (.numericLiteral (.pint 42)) .nil))) false

/-- The body of `c1Prog` alone. -/
def c1Body : Node := .bodyNode (.cons (.numericLiteral (.pint 42)) .nil)

/-- The function body `if true: if true: return 5` (a return nested two
conditional levels deep). -/
def c2FuncBody : Node :=
  .bodyNode (.cons
    (.ifNode (.booleanLiteral true)
      (.bodyNode (.cons
        (.ifNode (.booleanLiteral true)
          (.bodyNode (.cons (.returnNode (.someN (.numericLiteral (.pint 5)))) .nil))
          .nil .noneN) .nil))
      .nil .noneN) .nil)

/-- A state in which the zero-parameter function f with body `c2FuncBody`
is defined in the global scope. -/
def c2State : St :=
  { initState with globalEnv := { initState.globalEnv with funcs := [("f", ⟨[], c2FuncBody⟩)] } }

/-- The function body `if true: return 5` (one conditional level). -/
def c2OneLevelBody : Node :=
  .bodyNode (.cons
    (.ifNode (.booleanLiteral true)
      (.bodyNode (.cons (.returnNode (.someN (.numericLiteral (.pint 5)))) .nil))
      .nil .noneN) .nil)

/-- A state in which the zero-parameter function g with body
`c2OneLevelBody` is defined in the global scope. -/
def c2StateOne : St :=
  { initState with globalEnv := { initState.globalEnv with funcs := [("g", ⟨[], c2OneLevelBody⟩)] } }

/-- The program body `c = 0; while c < 3: (c++; for i in 0..2: break);
print c`.  Under the claim, break terminates only the for loop and the
while loop runs until c reaches 3. -/
def c3Body : Node :=
  .bodyNode (.cons (.assignment (.identifierNode "c") (.numericLiteral (.pint 0)))
    (.cons (.whileNode
      (.exprNode (.identifierNode "c") (some "<") (.someN (.numericLiteral (.pint 3))))
      (.bodyNode (.cons (.postfixExpr (.identifierNode "c") "++")
        (.cons (.forNode (.identifierNode "i") (.numericLiteral (.pint 0))
          (.numericLiteral (.pint 2)) (.bodyNode (.cons .breakNode .nil))) .nil))))
    (.cons (.printNode (.argsNode
      (.cons (.exprNode (.identifierNode "c") none .noneN) .nil)) false) .nil)))

/-- The statement `print i` used as a loop body. -/
def c4PrintBody : Node :=
  .bodyNode (.cons (.printNode (.argsNode
    (.cons (.exprNode (.identifierNode "i") none .noneN) .nil)) false) .nil)

/-- The loop `for i in 0..3: print i`. -/
def c4For03 : Node :=
  .forNode (.identifierNode "i") (.numericLiteral (.pint 0)) (.numericLiteral (.pint 3))
    c4PrintBody

/-- The loop `for i in 3..0: print i`. -/
def c4For30 : Node :=
  .forNode (.identifierNode "i") (.numericLiteral (.pint 3)) (.numericLiteral (.pint 0))
    c4PrintBody

/-- The loop `for i in "a"..3: print i` (a non-integer range start). -/
def c4ForStr : Node :=
  .forNode (.identifierNode "i") (.stringLiteral "a") (.numericLiteral (.pint 3))
    c4PrintBody

/-- The loop `for i in true..3: print i` (a boolean range start). -/
def c4ForBool : Node :=
  .forNode (.identifierNode "i") (.booleanLiteral true) (.numericLiteral (.pint 3))
    c4PrintBody

/-- The leaf nodes whose handlers read neither the environment nor the
depth counter. -/
def isLiteralNode : Node → Bool
  | .operatorNode _ => true
  | .identifierNode _ => true
  | .numericLiteral _ => true
  | .stringLiteral _ => true
  | .booleanLiteral _ => true
  | _ => false

/-- A state whose current scope is `None`, as `visit_program` leaves it at
the end of a program run. -/
def undefScopeState : St := { initState with cur := .undef }

/-- A state like `undefScopeState` in which the literal node 5 is already
memoized in the visit cache. -/
def undefScopeCachedState : St :=
  { undefScopeState with dispatchCache := [.numericLiteral (.pint 5)] }

/-- A state in which the one-parameter function h (body `return 7`) is
defined in the global scope. -/
def c6State : St :=
  { initState with globalEnv := { initState.globalEnv with
    funcs := [("h", ⟨[.pstr "p"], .bodyNode (.cons (.returnNode (.someN (.numericLiteral (.pint 7)))) .nil)⟩)] } }

/-- A state in which the two-parameter function h2 (body `return 7`) is
defined in the global scope. -/
def c6StateTwo : St :=
  { initState with globalEnv := { initState.globalEnv with
    funcs := [("h2", ⟨[.pstr "p", .pstr "q"],
      .bodyNode (.cons (.returnNode (.someN (.numericLiteral (.pint 7)))) .nil)⟩)] } }

/-- A call of h2 with a single argument expression `1`. -/
def c6CallOneArg : Node :=
  .callNode "h2" (.someN (.argsNode
    (.cons (.exprNode (.numericLiteral (.pint 1)) none .noneN) .nil)))

/-- The expression `1 / 0` as a term node. -/
def c7DivNode : Node :=
  .termNode (.numericLiteral (.pint 1)) (some "/") (.someN (.numericLiteral (.pint 0)))

/-- The program body `a = array of size 2; if a[0]: x = 1 else: x = 2`. -/
def c9Body : Node :=
  .bodyNode (.cons (.arrayDef "a" (.someN (.exprNode (.numericLiteral (.pint 2)) none .noneN)) .nil)
    (.cons (.ifNode (.exprNode (.arrayAccess "a" (.numericLiteral (.pint 0))) none .noneN)
      (.bodyNode (.cons (.assignment (.identifierNode "x") (.numericLiteral (.pint 1))) .nil))
      .nil
      (.someN (.bodyNode (.cons (.assignment (.identifierNode "x") (.numericLiteral (.pint 2))) .nil))))
    .nil))

/-- A program defining the zero-parameter function g whose body prints x
and returns nothing, then calls g twice. -/
def c10ProgNull : Node :=
  .program (.cons (.funcDef "g" .noneN
      (.bodyNode (.cons (.printNode (.argsNode
        (.cons (.exprNode (.stringLiteral "x") none .noneN) .nil)) false) .nil))) .nil)
    (.someN (.bodyNode (.cons (.callNode "g" .noneN) (.cons (.callNode "g" .noneN) .nil))))
    false

/-- A program defining the zero-parameter function h whose body prints y
and returns 1, then calls h twice. -/
def c10ProgVal : Node :=
  .program (.cons (.funcDef "h" .noneN
      (.bodyNode (.cons (.printNode (.argsNode
        (.cons (.exprNode (.stringLiteral "y") none .noneN) .nil)) false)
        (.cons (.returnNode (.someN (.numericLiteral (.pint 1)))) .nil)))) .nil)
    (.someN (.bodyNode (.cons (.callNode "h" .noneN) (.cons (.callNode "h" .noneN) .nil))))
    false

/-- The state after evaluating `a = array of size 2`, written out directly:
the global scope holds the array symbol with two `nullFill` slots. -/
def c9ArrState : St :=
  { initState with globalEnv := { initState.globalEnv with
    arrays := [("a", ⟨"a", 2, List.replicate 2 nullFill⟩)] } }

/-! The claim theorems. -/

/-- C1: the spec states that the interpreter returns the last evaluated
runtime value of the program body.  In the code, `visit_program` evaluates
the body but discards its value and returns None, so `interpret` returns
no value even for a program that evaluates without error: on the program
whose body is the single statement 42, the body itself evaluates to the
runtime number 42, yet `interpret` yields None (with nothing on stderr);
in general a successful `visit_program` always produces None. -/
theorem c1_interpret_drops_program_value :
    interpret 100 initState c1Prog = .ok (.vnone, []) ∧
    (∃ s1, accept 100 initState c1Body = .ok (.obj ⟨"number", .pint 42⟩, s1)) ∧
    (∀ (fuel : Nat) (s : St) (funcs : NodeList) (b : NodeOpt) (r : VRes) (s2 : St),
      runHandler fuel s (.program funcs b false) = .ok (r, s2) → r = .vnone) := by
  refine ⟨rfl, ⟨_, rfl⟩, ?_⟩
  intro fuel s funcs b r s2 h
  match fuel with
  | 0 => simp [runHandler, evalTask] at h
  | fuel + 1 =>
    simp only [runHandler, evalTask, Bool.false_eq_true, if_false] at h
    split at h
    · exact absurd h (by simp)
    · split at h
      · exact absurd h (by simp)
      · split at h
        · exact absurd h (by simp)
        · simp only [Except.ok.injEq, Prod.mk.injEq] at h
          exact h.1.symm

/-- C2: the spec states that a return nested inside two or more levels of
conditional bodies propagates its value to the enclosing function body.
In the code, `__handle_conditional_execution` for the outer conditional
returns None because the outer branch body's last statement is the inner
if, not the return, so the returned value is lost: calling the
zero-parameter function f whose body is `if true: if true: return 5`
yields None (and leaks conditional_flag to the caller), while the
one-level function g with body `if true: return 5` correctly yields 5. -/
theorem c2_nested_return_value_lost :
    (∃ s1, accept 200 c2State (.callNode "f" .noneN) = .ok (.vnone, s1) ∧
      s1.conditionalFlag = true) ∧
    (∃ s2, accept 200 c2StateOne (.callNode "g" .noneN) =
      .ok (.obj ⟨"number", .pint 5⟩, s2)) := by
  exact ⟨⟨_, rfl, rfl⟩, ⟨_, rfl⟩⟩

/-- C3: the spec states that both while and for loops consume break_flag
(clear it and stop iterating), so break terminates exactly the innermost
loop.  In the code, `visit_for` never reads or clears break_flag: a break
inside a for loop leaves the flag set after the for exits, and the
enclosing while loop then consumes it and terminates too.  In the program
`c = 0; while c < 3: (c++; for i in 0..2: break); print c` the while loop
runs only once: the final state prints 1 and holds c = 1 (the claim
expects 3). -/
theorem c3_for_leaves_break_flag_set :
    ∃ s1, accept 400 initState c3Body = .ok (.vnone, s1) ∧
      s1.output = "1" ∧
      alookup (Payload.pstr "c") s1.globalEnv.vars = some ⟨"number", .pint 1⟩ ∧
      s1.breakFlag = false := by
  exact ⟨_, rfl, rfl, rfl, rfl⟩

/-- Helper: the range the for loop iterates has exactly the absolute
difference of the bounds as its length. -/
theorem pythonRange_length (a b : Int) :
    (pythonRange a b (if a < b then 1 else -1)).length = (a - b).natAbs := by
  unfold pythonRange rangeLen
  by_cases hab : a < b <;> simp [hab] <;> omega

/-- Helper: the i-th visited value is the start plus i steps. -/
theorem pythonRange_getD (a b : Int) (i : Nat) (hi : i < (a - b).natAbs) :
    (pythonRange a b (if a < b then 1 else -1)).getD i 0 =
      a + (if a < b then 1 else -1) * i := by
  have hlen := pythonRange_length a b
  rw [List.getD_eq_getElem _ _ (by rw [hlen]; exact hi)]
  unfold pythonRange
  rw [List.getElem_map, List.getElem_range]

/-- Helper: the visited values are pairwise distinct. -/
theorem pythonRange_nodup (a b : Int) :
    (pythonRange a b (if a < b then 1 else -1)).Nodup := by
  unfold pythonRange
  refine List.Nodup.map ?_ (List.nodup_range _)
  intro x y hxy
  by_cases hab : a < b <;> simp [hab] at hxy <;> omega

/-- Helper: the endpoint is excluded. -/
theorem pythonRange_not_mem_endpoint (a b : Int) :
    b ∉ pythonRange a b (if a < b then 1 else -1) := by
  intro hmem
  unfold pythonRange at hmem
  rw [List.mem_map] at hmem
  obtain ⟨k, hk, hfk⟩ := hmem
  rw [List.mem_range] at hk
  by_cases hab : a < b <;> simp [rangeLen, hab] at hk hfk <;> omega

/-- C4 (amended): the range checks of `visit_for` accept exactly the
int-like payloads, where Python counts booleans as integers — a value with
`isInt` false raises the RUNTIME range error, one with `isInt` true is
accepted as its integer value (so a boolean range bound does not error,
contrary to the claim as stated).  For accepted bounds the loop visits
exactly the absolute difference of the bounds in values: starting at the
range start, stepping by plus one when start is below end and minus one
otherwise, pairwise distinct, with the endpoint excluded.  Concretely,
`for i in 0..3: print i` prints 012, `for i in 3..0: print i` prints 321,
and a string range bound raises the RUNTIME range error. -/
theorem c4_for_range_semantics :
    (∀ r : RunTimeObject, r.value.isInt = true →
      validateRangeValue r = .ok r.value.toIntVal) ∧
    (∀ r : RunTimeObject, r.value.isInt = false →
      validateRangeValue r = .error (.interp .runtimeErr rangeValueMsg)) ∧
    (∀ a b : Int, (pythonRange a b (if a < b then 1 else -1)).length = (a - b).natAbs) ∧
    (∀ a b : Int, ∀ i : Nat, i < (a - b).natAbs →
      (pythonRange a b (if a < b then 1 else -1)).getD i 0 =
        a + (if a < b then 1 else -1) * i) ∧
    (∀ a b : Int, (pythonRange a b (if a < b then 1 else -1)).Nodup) ∧
    (∀ a b : Int, b ∉ pythonRange a b (if a < b then 1 else -1)) ∧
    (∃ s1, accept 100 initState c4For03 = .ok (.vnone, s1) ∧ s1.output = "012") ∧
    (∃ s2, accept 100 initState c4For30 = .ok (.vnone, s2) ∧ s2.output = "321") ∧
    accept 100 initState c4ForStr = .error (.interp .runtimeErr rangeValueMsg) := by
  refine ⟨?_, ?_, pythonRange_length, pythonRange_getD, pythonRange_nodup,
    pythonRange_not_mem_endpoint, ⟨_, rfl, rfl⟩, ⟨_, rfl, rfl⟩, rfl⟩
  · intro r h; simp [validateRangeValue, h]
  · intro r h; simp [validateRangeValue, h]

/-- C4 counterexample: the claim says every non-integer range value raises
a RUNTIME error, but a boolean range start is accepted (Python
`isinstance(True, int)` holds): `for i in true..3: print i` runs without
error and prints 12. -/
theorem c4_counterexample_boolean_range :
    ∃ s1, accept 100 initState c4ForBool = .ok (.vnone, s1) ∧ s1.output = "12" := by
  exact ⟨_, rfl, rfl⟩

/-- C5 counterexample: the cached dispatch path is not equivalent to the
full visit path.  In a state whose current scope is None (as after a
program ends) with the literal node 5 memoized in the visit cache, the
full path raises the RUNTIME undefined-scope error while the cached path
(which `accept` takes) happily returns the runtime number 5. -/
theorem c5_counterexample_cached_path_skips_guards :
    runHandler 5 undefScopeCachedState (.numericLiteral (.pint 5)) =
      .ok (.obj ⟨"number", .pint 5⟩, undefScopeCachedState) ∧
    visit 5 undefScopeCachedState (.numericLiteral (.pint 5)) =
      .error (.interp .runtimeErr undefinedScopeMsg) ∧
    (Node.numericLiteral (.pint 5)) ∈ undefScopeCachedState.dispatchCache ∧
    accept 6 undefScopeCachedState (.numericLiteral (.pint 5)) =
      .ok (.obj ⟨"number", .pint 5⟩, undefScopeCachedState) := by
  exact ⟨rfl, rfl, by decide, rfl⟩

/-- C5 (amended): the memoized dispatch is equivalent to the full visit
path only in states that pass the two guards the cached path skips: for
every literal leaf node already memoized in the visit cache, when the
visitor depth is below the bound and the current scope is defined, the
full visit path (which consumes one fuel unit for its own frame) and the
direct handler dispatch produce identical results and states; the same
node always dispatches to the same handler because dispatch is a function
of the node.  Outside those states the two paths differ, as the
counterexample shows. -/
theorem c5_cached_dispatch_equivalence_on_literals :
    (∀ (f : Nat) (s : St) (n : Node), isLiteralNode n = true → n ∈ s.dispatchCache →
      s.visitorDepth < MAX_VISIT_DEPTH → s.cur ≠ .undef →
      visit (f + 1) s n = runHandler f s n) ∧
    accept 6 { initState with dispatchCache := [.numericLiteral (.pint 7)] }
        (.numericLiteral (.pint 7)) =
      .ok (.obj ⟨"number", .pint 7⟩,
        { initState with dispatchCache := [.numericLiteral (.pint 7)] }) := by
  refine ⟨?_, rfl⟩
  intro f s n hlit hmem hdepth hcur
  show evalTask (f + 1) s (.tVisit n) = evalTask f s (.tHandler n)
  simp only [evalTask]
  rw [if_neg (by omega : ¬ s.visitorDepth ≥ MAX_VISIT_DEPTH), if_neg hcur]
  simp only [hmem, if_true]
  cases f with
  | zero => cases n <;> simp_all [isLiteralNode, evalTask]
  | succ g => cases n <;> simp_all [isLiteralNode, evalTask]

/-- C6 (amended): argument expressions are evaluated in the caller's scope
and, when the call carries an argument list, an arity mismatch raises the
RUNTIME error naming the expected and supplied counts; but a call node
with no argument list at all bypasses the check (see the counterexample),
so supplying zero arguments that way to a function with parameters does
not fail.  The first conjunct is the call core after argument evaluation
(which runs in the caller state s); the second ties the handler of a call
node in the global scope to that core; the third is a concrete arity
failure: one argument supplied to a two-parameter function. -/
theorem c6_arity_mismatch_runtime_error :
    (∀ (f : Nat) (s : St) (nm : String) (an : Node) (fsym : FunctionSymbol)
        (vals : List RunTimeObject) (s1 : St) (lvl : Int),
      s.lookupFunctionChain nm = some fsym →
      accept f s an = .ok (.objs vals, s1) →
      vals.length ≠ fsym.params.length →
      evalCallCore (f + 1) s nm (.someN an) lvl =
        .error (.interp .runtimeErr (arityMsg fsym.params.length vals.length))) ∧
    (∀ (f : Nat) (s : St) (nm : String) (cargs : NodeOpt),
      s.cur = .globalScope → s.recursionCount ≤ INTERNAL_RECURSION_LIMIT →
      runHandler (f + 1) s (.callNode nm cargs) =
        evalCallCore f { s with recursionCount := s.recursionCount + 1 } nm cargs
          s.globalEnv.level) ∧
    accept 100 c6StateTwo c6CallOneArg = .error (.interp .runtimeErr (arityMsg 2 1)) := by
  refine ⟨?_, ?_, rfl⟩
  · intro f s nm an fsym vals s1 lvl hlook hacc hne
    unfold evalCallCore
    simp only [evalTask]
    rw [hlook]
    unfold accept at hacc
    rw [hacc]
    simp [hne]
  · intro f s nm cargs hcur hcount
    unfold runHandler evalCallCore
    simp only [evalTask]
    rw [if_neg (not_lt.mpr hcount), hcur]

/-- C6 counterexample: a call that supplies zero arguments by carrying no
argument list (`args` is None, the parser's representation of an empty
call) to the one-parameter function h does not raise the claimed RUNTIME
arity error: it runs the body and returns 7. -/
theorem c6_counterexample_no_args_bypasses_arity :
    ∃ s1, accept 100 c6State (.callNode "h" .noneN) = .ok (.obj ⟨"number", .pint 7⟩, s1) :=
  ⟨_, rfl⟩

/-- C7: division is defined only for number-labelled operands; with a
non-zero right operand it returns the numeric quotient (exactly, over the
rationals), with a right operand equal to zero it raises the RUNTIME
division-by-zero error, and with any non-number operand it raises the
RUNTIME invalid-operation error; in particular 1 / 0 fails with the
RUNTIME division-by-zero error, both at the helper and through a full
expression evaluation. -/
theorem c7_division_semantics :
    (∀ a b : Int, b ≠ 0 →
      handleMultiplicativeExpressions ⟨"number", .pint a⟩ ⟨"number", .pint b⟩ "/" =
        .ok ⟨"number", .pfloat ((a : ℚ) / (b : ℚ))⟩) ∧
    (∀ l r : RunTimeObject, l.label = "number" → r.label = "number" →
      r.value.pyEqZero = true →
      handleMultiplicativeExpressions l r "/" =
        .error (.interp .runtimeErr divisionByZeroMsg)) ∧
    (∀ l r : RunTimeObject, ¬(l.label = "number" ∧ r.label = "number") →
      handleMultiplicativeExpressions l r "/" =
        .error (.interp .runtimeErr (invalidOpMsg l.label "/" r.label))) ∧
    handleMultiplicativeExpressions ⟨"number", .pint 1⟩ ⟨"number", .pint 0⟩ "/" =
      .error (.interp .runtimeErr divisionByZeroMsg) ∧
    accept 50 initState c7DivNode = .error (.interp .runtimeErr divisionByZeroMsg) := by
  refine ⟨?_, ?_, ?_, rfl, rfl⟩
  · intro a b hb
    simp [handleMultiplicativeExpressions, Payload.pyEqZero, hb, pyDiv, Payload.toRat,
      Payload.isNum]
  · intro l r hl hr h0
    simp [handleMultiplicativeExpressions, hl, hr, h0]
  · intro l r h
    have hf : (l.label == "number" && r.label == "number") = false := by
      rcases not_and_or.mp h with h1 | h1 <;> simp [h1]
    simp [handleMultiplicativeExpressions, hf]

/-- C8: for each of the six relational operators, a string on the left
compared with a number on the right yields a boolean comparing the string
length against the number, while a number on the left compared with a
string on the right is an invalid combination raising the RUNTIME
invalid-operation error. -/
theorem c8_relational_string_number :
    (∀ (sv : String) (m : Int),
      handleRelationalExpressions ⟨"string", .pstr sv⟩ ⟨"number", .pint m⟩ "==" =
        .ok ⟨"boolean", .pbool (decide ((sv.length : ℚ) = (m : ℚ)))⟩) ∧
    (∀ (sv : String) (m : Int),
      handleRelationalExpressions ⟨"string", .pstr sv⟩ ⟨"number", .pint m⟩ "!=" =
        .ok ⟨"boolean", .pbool (decide ((sv.length : ℚ) ≠ (m : ℚ)))⟩) ∧
    (∀ (sv : String) (m : Int),
      handleRelationalExpressions ⟨"string", .pstr sv⟩ ⟨"number", .pint m⟩ "<" =
        .ok ⟨"boolean", .pbool (decide ((sv.length : ℚ) < (m : ℚ)))⟩) ∧
    (∀ (sv : String) (m : Int),
      handleRelationalExpressions ⟨"string", .pstr sv⟩ ⟨"number", .pint m⟩ ">" =
        .ok ⟨"boolean", .pbool (decide ((m : ℚ) < (sv.length : ℚ)))⟩) ∧
    (∀ (sv : String) (m : Int),
      handleRelationalExpressions ⟨"string", .pstr sv⟩ ⟨"number", .pint m⟩ "<=" =
        .ok ⟨"boolean", .pbool (decide ((sv.length : ℚ) ≤ (m : ℚ)))⟩) ∧
    (∀ (sv : String) (m : Int),
      handleRelationalExpressions ⟨"string", .pstr sv⟩ ⟨"number", .pint m⟩ ">=" =
        .ok ⟨"boolean", .pbool (decide ((m : ℚ) ≤ (sv.length : ℚ)))⟩) ∧
    (∀ (op : String) (x y : Payload),
      handleRelationalExpressions ⟨"number", x⟩ ⟨"string", y⟩ op =
        .error (.interp .runtimeErr (invalidOpMsg "number" op "string"))) := by
  exact ⟨fun sv m => rfl, fun sv m => rfl, fun sv m => rfl, fun sv m => rfl,
    fun sv m => rfl, fun sv m => rfl, fun op x y => rfl⟩

/-- C9 (amended): the boolean coercion of payloads makes the empty string,
the number 0 (int or float), the boolean false and the None payload falsy
and every other payload truthy; but the default fill of a size-allocated
array is a null-labelled object whose payload is the string null, which
is truthy, so such an element used as an if condition takes the then
branch (the program `a = array of size 2; if a[0]: x = 1 else: x = 2`
ends with x = 1). -/
theorem c9_truthiness_and_array_fill :
    Payload.truthy (.pstr "") = false ∧
    Payload.truthy (.pint 0) = false ∧
    Payload.truthy (.pfloat 0) = false ∧
    Payload.truthy (.pbool false) = false ∧
    Payload.truthy .pnone = false ∧
    (∀ sv : String, sv ≠ "" → Payload.truthy (.pstr sv) = true) ∧
    (∀ m : Int, m ≠ 0 → Payload.truthy (.pint m) = true) ∧
    (∀ q : ℚ, q ≠ 0 → Payload.truthy (.pfloat q) = true) ∧
    Payload.truthy (.pbool true) = true ∧
    nullFill = ⟨"null", .pstr "null"⟩ ∧
    nullFill.value.truthy = true ∧
    (∃ s1, accept 100 initState c9Body = .ok (.vnone, s1) ∧
      alookup (Payload.pstr "x") s1.globalEnv.vars = some ⟨"number", .pint 1⟩) := by
  refine ⟨rfl, rfl, by decide, rfl, rfl, ?_, ?_, ?_, rfl, rfl, rfl, ⟨_, rfl, rfl⟩⟩
  · intro sv h; simp [Payload.truthy, h]
  · intro m h; simp [Payload.truthy, h]
  · intro q h; simp [Payload.truthy, h]

/-- C9 counterexample: accessing an element of a size-allocated array
yields the null-labelled object whose payload is the string null, and that
payload is truthy — it does not behave as falsy in an if condition, contra
the claim. -/
theorem c9_counterexample_array_fill_truthy :
    (∃ s1, accept 50 c9ArrState (.arrayAccess "a" (.numericLiteral (.pint 0))) =
      .ok (.obj nullFill, s1)) ∧
    nullFill.value.truthy = true := ⟨⟨_, rfl⟩, rfl⟩

/-- C10: the call cache stores what the body produced and serves it back
verbatim, but a stored None is exactly what a cache miss returns, so a
call whose body produced no value is re-executed on every later call with
the same environment fingerprint while a non-null result is served from
the cache without re-executing the body.  Concretely: a program calling a
print-only function twice prints twice (the body runs both times), while
a program calling a printing-and-returning function twice prints once
(the second call is answered from the cache). -/
theorem c10_call_cache_null_results :
    (∀ (c : List (EnvKey × VRes)) (k : EnvKey) (v : VRes),
      pyCacheGet (upsert k v c) k = v) ∧
    (∀ k : EnvKey, pyCacheGet [] k = .vnone) ∧
    (∃ s1, accept 200 initState c10ProgNull = .ok (.vnone, s1) ∧ s1.output = "xx") ∧
    (∃ s2, accept 200 initState c10ProgVal = .ok (.vnone, s2) ∧ s2.output = "y") := by
  refine ⟨?_, fun k => rfl, ⟨_, rfl, rfl⟩, ⟨_, rfl, rfl⟩⟩
  intro c k v
  induction c with
  | nil => simp [upsert, pyCacheGet, alookup]
  | cons kv rest ih =>
    obtain ⟨k2, v2⟩ := kv
    by_cases hk : k2 = k
    · subst hk; simp [upsert, pyCacheGet, alookup]
    · simpa [upsert, pyCacheGet, alookup, hk] using ih

end Nyaa
